import Mathlib

/-!
Verification of the two CASP data-fetch scripts
(`scripts/casp_ligand_fetch.py`, script 1, and `scripts/casp_target_fetch.py`,
script 2) against their natural-language specification.

Python strings are modelled as `List Char`; the filesystem is modelled as a
list of existing paths (plus, where needed, the written `(path, content)`
pairs); the network is modelled as a function from URL to
`Except error response`, so that a raised transport exception is the
`Except.error` case.  Loops that may raise an uncaught exception return the
state reached so far together with `err : Option error`; an exception caught
inside the loop body is instead recorded in a `failures` list and the loop
recursion continues, exactly mirroring the `try/except` structure of the
source.
-/

namespace Casp

/-! ## Python string primitives -/

/-- The ASCII whitespace characters recognised by Python's `str.strip`
and by the regex class `\s`. -/
def pySpace (c : Char) : Bool :=
  c = ' ' || c = '\t' || c = '\n' || c = '\r' || c = '\x0b' || c = '\x0c'

/-- Python `str.strip()`: drop leading and trailing whitespace. -/
def pyStrip (s : List Char) : List Char :=
  ((s.dropWhile pySpace).reverse.dropWhile pySpace).reverse

/-- Python `re.sub(r"\s+", "", s)`: remove every whitespace character. -/
def stripWs (s : List Char) : List Char :=
  s.filter (fun c => !pySpace c)

/-- Python `s.split("|", 1)` for a string known to contain a pipe:
the part before the first `'|'` and the part after it. -/
def splitPipe1 (s : List Char) : List Char × List Char :=
  (s.takeWhile (fun c => c ≠ '|'), (s.dropWhile (fun c => c ≠ '|')).drop 1)

/-! ## Sequence normalizer (script 1, `fetch_casp16_sequences` /
`fetch_casp15_ligand_fastas` body, lines 102-107 and 154-158)

```
text = r.text.strip()
if "\n" not in text and "|" in text:
    hdr, seq = text.split("|", 1)
    text = hdr.strip() + "\n" + re.sub(r"\s+", "", seq)
dest.write_text(text + "\n")
```
-/

/-- The text written to the destination file, as a function of the raw
response body. -/
def normalizeSeq (raw : List Char) : List Char :=
  let text := pyStrip raw
  let text :=
    if ¬ '\n' ∈ text ∧ '|' ∈ text then
      let hs := splitPipe1 text
      pyStrip hs.1 ++ '\n' :: stripWs hs.2
    else text
  text ++ ['\n']

end Casp

namespace Casp

/-! ## POSIX path model (script 2, `is_within_directory`, lines 70-80)

Paths are `List Char`; a path component list is `List (List Char)`.
`os.path.abspath` joins a relative path onto the current working directory
and lexically normalizes the result, so we model it at the component level:
split on `'/'`, prepend the (absolute) cwd components when the path is
relative, then apply `posixpath.normpath`'s component pass specialised to
absolute paths (leading `..` components of an absolute path are dropped). -/

/-- Python `s.split('/')` (keeps empty fields). -/
def splitOnSlash : List Char → List (List Char)
  | [] => [[]]
  | '/' :: rest => [] :: splitOnSlash rest
  | c :: rest =>
    match splitOnSlash rest with
    | [] => [[c]]
    | g :: gs => (c :: g) :: gs

/-- The component pass of `posixpath.normpath` for an absolute path:
drop empty and `.` components, resolve `..` against the accumulated
components, and drop a `..` that would climb above the root. -/
def normComps (comps : List (List Char)) : List (List Char) :=
  comps.foldl
    (fun acc comp =>
      if comp = [] ∨ comp = ['.'] then acc
      else if comp ≠ ['.', '.'] ∨ acc.getLast? = some ['.', '.'] then acc ++ [comp]
      else acc.dropLast)
    []

/-- `os.path.abspath`, given the absolute components of the current working
directory: component list of the normalized absolute path. -/
def abspathComps (cwd : List (List Char)) (p : List Char) : List (List Char) :=
  if p.head? = some '/' then normComps (splitOnSlash p)
  else normComps (cwd ++ splitOnSlash p)

/-- Longest common prefix of two component lists (the binary step of
`os.path.commonpath`). -/
def commonPref : List (List Char) → List (List Char) → List (List Char)
  | a :: as, b :: bs => if a = b then a :: commonPref as bs else []
  | _, _ => []

/-- `os.path.commonpath` over absolute paths given as component lists:
each path's components are filtered of empty and `.` entries, then the
common prefix is taken. -/
def commonpathComps (ps : List (List (List Char))) : List (List Char) :=
  match ps.map (fun p => p.filter (fun comp => decide (¬ (comp = [] ∨ comp = ['.'])))) with
  | [] => []
  | q :: qs => qs.foldl commonPref q

/-- `os.path.join(a, b)` for POSIX paths. -/
def osJoin (a b : List Char) : List Char :=
  if b.head? = some '/' then b
  else if a = [] ∨ a.getLast? = some '/' then a ++ b
  else a ++ '/' :: b

/-- Script 2's containment check:

```
def is_within_directory(directory, target):
    abs_directory = os.path.abspath(directory)
    abs_target = os.path.abspath(target)
    return os.path.commonpath([abs_directory]) == os.path.commonpath([abs_directory, abs_target])
```
-/
def is_within_directory (cwd : List (List Char)) (directory target : List Char) : Bool :=
  let abs_directory := abspathComps cwd directory
  let abs_target := abspathComps cwd target
  decide (commonpathComps [abs_directory] = commonpathComps [abs_directory, abs_target])

/-! ## Script 2's tar extraction loop (lines 74-80)

```
for m in tar.getmembers():
    if any(m.name.lower().endswith(ext) for ext in (".smi", ".sdf", ".txt", ".tsv", ".csv")):
        out_path = os.path.join(lig_dir, m.name)
        if not is_within_directory(lig_dir, out_path):
            continue
        tar.extract(m, path=lig_dir)
```
-/

/-- The type recorded in a tar member's header.  (The loop above never
inspects it.) -/
inductive MemberType where
  | file
  | dir
  | symlink
  | other
deriving DecidableEq, Repr

/-- A tar archive member, as seen by script 2's extraction loop. -/
structure TarMember where
  name : List Char
  mtype : MemberType
deriving DecidableEq, Repr

/-- The allowed extension suffixes of script 2. -/
def ligandSuffixes : List (List Char) :=
  [(".smi").data, (".sdf").data, (".txt").data, (".tsv").data, (".csv").data]

/-- Python `m.name.lower().endswith(ext)` for some allowed `ext`. -/
def nameMatchesLigandSuffix (name : List Char) : Bool :=
  ligandSuffixes.any (fun ext => ext.isSuffixOf (name.map Char.toLower))

/-- The members extracted by script 2's loop, in order. -/
def casp15Extracted (cwd : List (List Char)) (ligDir : List Char) :
    List TarMember → List TarMember
  | [] => []
  | m :: ms =>
    if nameMatchesLigandSuffix m.name then
      if ¬ is_within_directory cwd ligDir (osJoin ligDir m.name) then
        casp15Extracted cwd ligDir ms
      else m :: casp15Extracted cwd ligDir ms
    else casp15Extracted cwd ligDir ms

/-! ## Combined-table writer (script 1, `fetch_casp16_pharma_smiles`, lines 54-86)

```
combined_rows = []
combined_header = None
for tarname in tars:
    ...
    with tarfile.open(local_tar, "r:gz") as tf:
        for m in tf.getmembers():
            if m.isfile() and m.name.lower().endswith(".tsv"):
                ...
                header = next(reader)
                if combined_header is None:
                    combined_header = ["supertarget","source_file"] + header
                for row in reader:
                    combined_rows.append([tarname.split(".")[0], m.name] + row)
```

A member carries its tab-parsed table (list of rows, each a list of fields);
`next(reader)` on an empty table raises `StopIteration`, modelled as the
`Except.error` case. -/

/-- A tar member of a SMILES tarball as seen by the combining loop. -/
structure TsvMember where
  name : List Char
  isfile : Bool
  table : List (List (List Char))
deriving DecidableEq, Repr

/-- One downloaded tarball: its filename and its members. -/
structure TsvArchive where
  tarname : List Char
  members : List TsvMember
deriving DecidableEq, Repr

/-- The accumulated combined table: the header recorded from the first TSV
read (if any), and the collected data rows. -/
structure CombState where
  header : Option (List (List Char))
  rows : List (List (List Char))
deriving DecidableEq, Repr

/-- Python `tarname.split(".")[0]`. -/
def tsvLabel (tarname : List Char) : List Char :=
  tarname.takeWhile (fun c => c ≠ '.')

/-- Processing of a single archive member by the combining loop. -/
def combineMember (tarname : List Char) (st : CombState) (m : TsvMember) :
    Except (List Char) CombState :=
  if m.isfile && (".tsv").data.isSuffixOf (m.name.map Char.toLower) then
    match m.table with
    | [] => Except.error (("StopIteration").data)
    | header :: rows =>
      let st1 : CombState :=
        { st with
          header :=
            if st.header = none then
              some (("supertarget").data :: ("source_file").data :: header)
            else st.header }
      Except.ok
        { st1 with
          rows := st1.rows ++ rows.map (fun row => tsvLabel tarname :: m.name :: row) }
  else Except.ok st

/-- The inner member loop of one tarball; an error (the `StopIteration` of
`next(reader)` on an empty file) propagates. -/
def combineMembers (tarname : List Char) (st : CombState) :
    List TsvMember → Except (List Char) CombState
  | [] => Except.ok st
  | m :: ms =>
    match combineMember tarname st m with
    | Except.error e => Except.error e
    | Except.ok st1 => combineMembers tarname st1 ms

/-- The outer loop over all downloaded tarballs. -/
def combineArchives (st : CombState) : List TsvArchive → Except (List Char) CombState
  | [] => Except.ok st
  | a :: as =>
    match combineMembers a.tarname st a.members with
    | Except.error e => Except.error e
    | Except.ok st1 => combineArchives st1 as

/-- The combined table produced by `fetch_casp16_pharma_smiles` (header and
rows as written to `CASP16_pharma_SMILES_combined.tsv`). -/
def combinedTable (archives : List TsvArchive) : Except (List Char) CombState :=
  combineArchives { header := none, rows := [] } archives

/-! ## Network and per-target sequence fetch loops -/

/-- An HTTP response: status code and body text. -/
structure Resp where
  status : Nat
  body : List Char
deriving DecidableEq, Repr

/-- `requests.Response.raise_for_status` raises exactly for 4xx and 5xx. -/
def httpStatusBad (st : Nat) : Bool :=
  decide (400 ≤ st ∧ st < 600)

/-- Result of running a per-target fetch loop: the set of existing paths,
the `(path, content)` pairs written, the identifiers for which a network
request was issued, the identifiers skipped because their output already
existed, the identifiers whose failure was caught and logged, and the
uncaught exception that aborted the loop, if any. -/
structure SeqResult where
  fs : List (List Char)
  writes : List (List Char × List Char)
  requested : List (List Char)
  skipped : List (List Char)
  failures : List (List Char)
  err : Option (List Char)
deriving DecidableEq, Repr

/-- URL of script 1's CASP16 per-target sequence endpoint
(`urljoin(BASE, f"casp16/target.cgi?target={tid}&view=sequence")`). -/
def seq16Url (tid : List Char) : List Char :=
  ("https://predictioncenter.org/casp16/target.cgi?target=").data ++ tid ++
    ("&view=sequence").data

/-- Destination path `outdir / "casp16" / "fastas" / f"{tid}.fasta"`. -/
def seq16Dest (outdir tid : List Char) : List Char :=
  outdir ++ ("/casp16/fastas/").data ++ tid ++ (".fasta").data

/-- Script 1's `fetch_casp16_sequences` per-target loop (lines 93-107).
There is no `try/except` around the body: a transport error or a bad
HTTP status propagates and aborts the loop. -/
def fetch_casp16_sequences (net : List Char → Except (List Char) Resp)
    (outdir : List Char) (fs : List (List Char)) : List (List Char) → SeqResult
  | [] => ⟨fs, [], [], [], [], none⟩
  | tid :: rest =>
    let dest := seq16Dest outdir tid
    if dest ∈ fs then
      let r := fetch_casp16_sequences net outdir fs rest
      { r with skipped := tid :: r.skipped }
    else
      match net (seq16Url tid) with
      | Except.error e =>
        { fs := fs, writes := [], requested := [tid], skipped := [], failures := [],
          err := some e }
      | Except.ok resp =>
        if httpStatusBad resp.status then
          { fs := fs, writes := [], requested := [tid], skipped := [], failures := [],
            err := some (("HTTPError").data) }
        else
          let r := fetch_casp16_sequences net outdir (dest :: fs) rest
          { r with
            writes := (dest, normalizeSeq resp.body) :: r.writes,
            requested := tid :: r.requested }

/-- URL of script 1's CASP15 per-target sequence endpoint. -/
def seq15Url (tid : List Char) : List Char :=
  ("https://predictioncenter.org/casp15/target.cgi?target=").data ++ tid ++
    ("&view=sequence").data

/-- Destination path `outdir / "casp15" / "fastas" / f"{tid}.fasta"`. -/
def seq15Dest (outdir tid : List Char) : List Char :=
  outdir ++ ("/casp15/fastas/").data ++ tid ++ (".fasta").data

/-- Script 1's `fetch_casp15_ligand_fastas` per-target loop (lines 144-160).
The body is wrapped in `try/except Exception`: any failure is logged and
the loop continues with the next identifier. -/
def fetch_casp15_ligand_fastas (net : List Char → Except (List Char) Resp)
    (outdir : List Char) (fs : List (List Char)) : List (List Char) → SeqResult
  | [] => ⟨fs, [], [], [], [], none⟩
  | tid :: rest =>
    let dest := seq15Dest outdir tid
    if dest ∈ fs then
      let r := fetch_casp15_ligand_fastas net outdir fs rest
      { r with skipped := tid :: r.skipped }
    else
      match net (seq15Url tid) with
      | Except.error _ =>
        let r := fetch_casp15_ligand_fastas net outdir fs rest
        { r with requested := tid :: r.requested, failures := tid :: r.failures }
      | Except.ok resp =>
        if httpStatusBad resp.status then
          let r := fetch_casp15_ligand_fastas net outdir fs rest
          { r with requested := tid :: r.requested, failures := tid :: r.failures }
        else
          let r := fetch_casp15_ligand_fastas net outdir (dest :: fs) rest
          { r with
            writes := (dest, normalizeSeq resp.body) :: r.writes,
            requested := tid :: r.requested }

/-- URL of script 2's per-target sequence endpoint
(`f"{BASE}/{CASP}/target.cgi?target={tid}&view=sequence"`). -/
def casp15TargetUrl (tid : List Char) : List Char :=
  ("https://predictioncenter.org/casp15/target.cgi?target=").data ++ tid ++
    ("&view=sequence").data

/-- Destination path `os.path.join(OUT, "fasta", f"{tid}.fasta")` of script 2. -/
def casp15FastaDest (tid : List Char) : List Char :=
  ("casp15_original_inputs/fasta/").data ++ tid ++ (".fasta").data

/-- Script 2's per-target FASTA loop (lines 45-56).  `fetch` (urllib) raises
on transport errors and non-2xx statuses, modelled as the `Except.error`
case of `net`; a body not starting with `b">"` raises `RuntimeError`; every
exception is caught, logged, and the loop continues.  There is no existence
check: every identifier is fetched unconditionally. -/
def casp15TargetFetchLoop (net : List Char → Except (List Char) (List Char))
    (fs : List (List Char)) : List (List Char) → SeqResult
  | [] => ⟨fs, [], [], [], [], none⟩
  | tid :: rest =>
    match net (casp15TargetUrl tid) with
    | Except.error _ =>
      let r := casp15TargetFetchLoop net fs rest
      { r with requested := tid :: r.requested, failures := tid :: r.failures }
    | Except.ok data =>
      if data.head? = some '>' then
        let dest := casp15FastaDest tid
        let r := casp15TargetFetchLoop net (dest :: fs) rest
        { r with writes := (dest, data) :: r.writes, requested := tid :: r.requested }
      else
        let r := casp15TargetFetchLoop net fs rest
        { r with requested := tid :: r.requested, failures := tid :: r.failures }

/-! ## Script 1's `download` (lines 31-39)

```
def download(url, dest: Path):
    dest.parent.mkdir(parents=True, exist_ok=True)
    with S.get(url, stream=True, timeout=120) as r:
        r.raise_for_status()
        with open(dest, "wb") as f:
            for chunk in r.iter_content(chunk_size=1<<20):
                if chunk:
                    f.write(chunk)
    return dest
```
-/

/-- A filesystem split into created directories and written files. -/
structure FileSys where
  dirs : List (List Char)
  files : List (List Char × List Char)
deriving DecidableEq, Repr

/-- `Path.parent`: the path up to the last `'/'`. -/
def parentDir (p : List Char) : List Char :=
  ((p.reverse.dropWhile (fun c => c ≠ '/')).drop 1).reverse

/-- Script 1's `download`: create the parent directory, issue the GET,
raise on transport error or bad status (before opening the destination),
otherwise write the body to the destination. -/
def download (net : List Char → Except (List Char) Resp) (fsys : FileSys)
    (url dest : List Char) : FileSys × Option (List Char) :=
  let fsys1 : FileSys := { fsys with dirs := parentDir dest :: fsys.dirs }
  match net url with
  | Except.error e => (fsys1, some e)
  | Except.ok r =>
    if httpStatusBad r.status then (fsys1, some (("HTTPError").data))
    else ({ fsys1 with files := (dest, r.body) :: fsys1.files }, none)

/-! ## Script 1's existence-checked download loops
(`fetch_casp16_pharma_smiles` lines 57-64, `fetch_casp16_results`
lines 120-127, `fetch_casp15_predictions` lines 170-177).
Each returns the list of entries actually downloaded. -/

/-- `smiles_dir / tarname` with `smiles_dir = outdir / "casp16" / "pharma_smiles"`. -/
def casp16SmilesTarDest (outdir tarname : List Char) : List Char :=
  outdir ++ ("/casp16/pharma_smiles/").data ++ tarname

/-- The tarballs downloaded by `fetch_casp16_pharma_smiles`'s loop:
`if not local_tar.exists(): download(...)`. -/
def casp16SmilesDownloads (outdir : List Char) (fs : List (List Char)) :
    List (List Char) → List (List Char)
  | [] => []
  | t :: rest =>
    if casp16SmilesTarDest outdir t ∈ fs then casp16SmilesDownloads outdir fs rest
    else t :: casp16SmilesDownloads outdir fs rest

/-- `resdir / fn` with `resdir = outdir / "casp16" / "results"`. -/
def casp16ResultsDest (outdir fn : List Char) : List Char :=
  outdir ++ ("/casp16/results/").data ++ fn

/-- The CSVs downloaded by `fetch_casp16_results`'s loop. -/
def casp16ResultsDownloads (outdir : List Char) (fs : List (List Char)) :
    List (List Char) → List (List Char)
  | [] => []
  | fn :: rest =>
    if casp16ResultsDest outdir fn ∈ fs then casp16ResultsDownloads outdir fs rest
    else fn :: casp16ResultsDownloads outdir fs rest

/-- `pred_dir / t` with `pred_dir = outdir / "casp15" / "predictions"`. -/
def casp15PredDest (outdir t : List Char) : List Char :=
  outdir ++ ("/casp15/predictions/").data ++ t

/-- The tarballs downloaded by `fetch_casp15_predictions`'s loop. -/
def casp15PredDownloads (outdir : List Char) (fs : List (List Char)) :
    List (List Char) → List (List Char)
  | [] => []
  | t :: rest =>
    if casp15PredDest outdir t ∈ fs then casp15PredDownloads outdir fs rest
    else t :: casp15PredDownloads outdir fs rest

/-! ## Index lister (script 1, `http_index_list`, lines 20-28)

```
hrefs = re.findall(r'href="([^"]+)"', r.text)
hrefs = [h for h in hrefs if not h.startswith("?") and h not in ("../","./") and not h.startswith("#")]
return sorted(set(hrefs))
```
-/

/-- The literal `href="` the regex scans for. -/
def hrefNeedle : List Char := ['h', 'r', 'e', 'f', '=', '"']

/-- Scanner of `re.findall(r'href="([^"]+)"', page)`, structurally
recursive on a fuel bound: at a position where the literal `href="` matches
and is followed by at least one non-quote character and a closing quote,
capture the non-quote run and resume after the closing quote; otherwise
advance one position.  Every step consumes at least one character, so a
fuel of the input length is sufficient. -/
def findHrefsAux : Nat → List Char → List (List Char)
  | 0, _ => []
  | _, [] => []
  | fuel + 1, c :: rest =>
    if hrefNeedle.isPrefixOf (c :: rest) then
      let cap := (rest.drop 5).takeWhile (fun d => d ≠ '"')
      if 0 < cap.length ∧ cap.length < (rest.drop 5).length then
        cap :: findHrefsAux fuel ((rest.drop 5).drop (cap.length + 1))
      else findHrefsAux fuel rest
    else findHrefsAux fuel rest

/-- `re.findall(r'href="([^"]+)"', page)`. -/
def findHrefs (s : List Char) : List (List Char) :=
  findHrefsAux s.length s

/-- The list-comprehension filter of `http_index_list`. -/
def keepHref (h : List Char) : Bool :=
  (h.head? != some '?') && (h != ("../").data) && (h != ("./").data) &&
    (h.head? != some '#')

/-- Script 1's `http_index_list` applied to a fetched page body:
`sorted(set(filtered hrefs))`. -/
def http_index_list (page : List Char) : List (List Char) :=
  List.insertionSort (fun a b : List Char => a ≤ b)
    ((findHrefs page).filter keepHref).dedup

/-! ## CLI driver (script 1, `main`, lines 180-202) -/

/-- The five stages of script 1. -/
inductive Stage where
  | smiles16
  | fastas16
  | results16
  | fastas15
  | preds15
deriving DecidableEq, Repr

/-- The parsed CLI flags of script 1 (`--out` omitted: it does not affect
stage selection). -/
structure Args where
  skip_casp16_smiles : Bool
  skip_casp16_fastas : Bool
  with_casp16_results : Bool
  skip_casp15_fastas : Bool
  with_casp15_predictions : Bool
deriving DecidableEq, Repr

/-- The stages `main` runs, in the order it runs them:

```
if not args.skip_casp16_smiles: fetch_casp16_pharma_smiles(outdir)
if not args.skip_casp16_fastas: fetch_casp16_sequences(outdir)
if args.with_casp16_results: fetch_casp16_results(outdir)
if not args.skip_casp15_fastas: fetch_casp15_ligand_fastas(outdir)
if args.with_casp15_predictions: fetch_casp15_predictions(outdir)
```
-/
def mainStages (a : Args) : List Stage :=
  (if !a.skip_casp16_smiles then [Stage.smiles16] else []) ++
  (if !a.skip_casp16_fastas then [Stage.fastas16] else []) ++
  (if a.with_casp16_results then [Stage.results16] else []) ++
  (if !a.skip_casp15_fastas then [Stage.fastas15] else []) ++
  (if a.with_casp15_predictions then [Stage.preds15] else [])

/-- The fixed stage order named by the claim (spec side of the C8
refinement statement). -/
def stageOrder : List Stage :=
  [Stage.smiles16, Stage.fastas16, Stage.results16, Stage.fastas15, Stage.preds15]

/-- Which stages the claim says are selected, per flag (spec side of the C8
refinement statement): the first, second and fourth run unless their
skip flag is set; the third and fifth run only if their with flag is set. -/
def stageSelected (a : Args) : Stage → Bool
  | Stage.smiles16 => !a.skip_casp16_smiles
  | Stage.fastas16 => !a.skip_casp16_fastas
  | Stage.results16 => a.with_casp16_results
  | Stage.fastas15 => !a.skip_casp15_fastas
  | Stage.preds15 => a.with_casp15_predictions

end Casp

namespace Casp

/-! ## Helper lemmas -/

theorem mem_pyStrip {c : Char} {s : List Char} (h : c ∈ pyStrip s) : c ∈ s := by
  unfold pyStrip at h
  rw [List.mem_reverse] at h
  have h2 := (List.dropWhile_sublist (l := (s.dropWhile pySpace).reverse) pySpace).subset h
  rw [List.mem_reverse] at h2
  exact (List.dropWhile_sublist pySpace).subset h2

theorem not_mem_stripWs_of_space {c : Char} (hc : pySpace c = true) (s : List Char) :
    c ∉ stripWs s := by
  intro h
  unfold stripWs at h
  have := List.of_mem_filter h
  simp [hc] at this

theorem normComps_foldl_aux (comps : List (List Char)) :
    ∀ acc : List (List Char), (∀ y ∈ acc, ¬ (y = [] ∨ y = ['.'])) →
      ∀ x ∈ comps.foldl
        (fun acc comp =>
          if comp = [] ∨ comp = ['.'] then acc
          else if comp ≠ ['.', '.'] ∨ acc.getLast? = some ['.', '.'] then acc ++ [comp]
          else acc.dropLast)
        acc, ¬ (x = [] ∨ x = ['.']) := by
  induction comps with
  | nil => intro acc hacc x hx; exact hacc x hx
  | cons c cs ih =>
    intro acc hacc x hx
    rw [List.foldl_cons] at hx
    refine ih _ ?_ x hx
    by_cases h1 : c = [] ∨ c = ['.']
    · simpa [h1] using hacc
    · by_cases h2 : c ≠ ['.', '.'] ∨ acc.getLast? = some ['.', '.']
      · intro y hy
        simp only [h1, if_false, h2, if_true, List.mem_append, List.mem_singleton] at hy
        rcases hy with hy | hy
        · exact hacc y hy
        · exact hy ▸ h1
      · intro y hy
        simp only [h1, if_false, h2, if_true] at hy
        exact hacc y ((List.dropLast_sublist acc).subset hy)

theorem mem_normComps {x : List Char} {comps : List (List Char)}
    (hx : x ∈ normComps comps) : ¬ (x = [] ∨ x = ['.']) :=
  normComps_foldl_aux comps [] (by simp) x hx

theorem mem_abspathComps {x : List Char} {cwd : List (List Char)} {p : List Char}
    (hx : x ∈ abspathComps cwd p) : ¬ (x = [] ∨ x = ['.']) := by
  unfold abspathComps at hx
  by_cases h : p.head? = some '/'
  · exact mem_normComps (by simpa [h] using hx)
  · exact mem_normComps (by simpa [h] using hx)

theorem filter_triv_of_normalized {l : List (List Char)}
    (h : ∀ x ∈ l, ¬ (x = [] ∨ x = ['.'])) :
    l.filter (fun comp => decide (¬ (comp = [] ∨ comp = ['.']))) = l := by
  rw [List.filter_eq_self]
  intro a ha
  exact decide_eq_true (h a ha)

theorem commonPref_eq_self {a b : List (List Char)} (h : commonPref a b = a) :
    a <+: b := by
  induction a generalizing b with
  | nil => exact List.nil_prefix
  | cons x xs ih =>
    cases b with
    | nil => simp [commonPref] at h
    | cons y ys =>
      by_cases hxy : x = y
      · subst hxy
        rw [commonPref, if_pos rfl, List.cons.injEq] at h
        obtain ⟨t, ht⟩ := ih h.2
        exact ⟨t, by rw [List.cons_append, ht]⟩
      · rw [commonPref, if_neg hxy] at h
        exact absurd h.symm (List.cons_ne_nil x xs)

theorem is_within_directory_sound {cwd : List (List Char)} {d t : List Char}
    (h : is_within_directory cwd d t = true) :
    abspathComps cwd d <+: abspathComps cwd t := by
  unfold is_within_directory at h
  have h' := of_decide_eq_true h
  have hd : (abspathComps cwd d).filter
      (fun comp => decide (¬ (comp = [] ∨ comp = ['.']))) = abspathComps cwd d :=
    filter_triv_of_normalized (fun x hx => mem_abspathComps hx)
  have ht : (abspathComps cwd t).filter
      (fun comp => decide (¬ (comp = [] ∨ comp = ['.']))) = abspathComps cwd t :=
    filter_triv_of_normalized (fun x hx => mem_abspathComps hx)
  simp only [commonpathComps, List.map_cons, List.map_nil, List.foldl_cons,
    List.foldl_nil, hd, ht] at h'
  exact commonPref_eq_self h'.symm

end Casp

namespace Casp

/-- C4: if the stripped response body contains no newline but does contain a
pipe, the normalizer splits at the first pipe and writes exactly two lines,
the stripped header and the whitespace-free body, followed by a single
trailing newline. -/
theorem c4_normalizer (raw : List Char)
    (h1 : '\n' ∉ pyStrip raw) (h2 : '|' ∈ pyStrip raw) :
    normalizeSeq raw =
      pyStrip (splitPipe1 (pyStrip raw)).1 ++
        '\n' :: (stripWs (splitPipe1 (pyStrip raw)).2 ++ ['\n']) ∧
    '\n' ∉ pyStrip (splitPipe1 (pyStrip raw)).1 ∧
    '\n' ∉ stripWs (splitPipe1 (pyStrip raw)).2 := by
  refine ⟨?_, ?_, ?_⟩
  · unfold normalizeSeq
    simp only [h1, h2, not_false_iff, and_true, if_pos, true_and]
    simp [splitPipe1]
  · intro hmem
    have : '\n' ∈ (pyStrip raw).takeWhile (fun c => c ≠ '|') :=
      mem_pyStrip (s := (pyStrip raw).takeWhile (fun c => c ≠ '|')) hmem
    exact h1 ((List.takeWhile_sublist _).subset this)
  · exact not_mem_stripWs_of_space (by decide) _

/-- Witness for C4 at the concrete input of the claim:
the raw body is the single line with a pipe and the
normalized output is the two-line record with one trailing newline. -/
theorem c4_normalizer_witness :
    ('\n' ∉ pyStrip (">T0001 desc|ACDEFGHIK").data ∧
      '|' ∈ pyStrip (">T0001 desc|ACDEFGHIK").data ∧
      normalizeSeq (">T0001 desc|ACDEFGHIK").data = (">T0001 desc\nACDEFGHIK\n").data) ∧
    (normalizeSeq (">T0001 desc|ACDEFGHIK").data =
      pyStrip (splitPipe1 (pyStrip (">T0001 desc|ACDEFGHIK").data)).1 ++
        '\n' :: (stripWs (splitPipe1 (pyStrip (">T0001 desc|ACDEFGHIK").data)).2 ++ ['\n'])) :=
  ⟨⟨by decide, by decide, by decide⟩,
    (c4_normalizer (">T0001 desc|ACDEFGHIK").data (by decide) (by decide)).1⟩

end Casp

namespace Casp

/-- C1: every member extracted by script 2's tar loop has a resolved output
path that stays inside the extraction root (the root's absolute path
components are a prefix of the output path's absolute path components), and
a member failing the containment check is never extracted. -/
theorem c1_extraction_containment (cwd : List (List Char)) (ligDir : List Char)
    (members : List TarMember) :
    (∀ m ∈ casp15Extracted cwd ligDir members,
      abspathComps cwd ligDir <+: abspathComps cwd (osJoin ligDir m.name)) ∧
    (∀ m : TarMember,
      is_within_directory cwd ligDir (osJoin ligDir m.name) = false →
      m ∉ casp15Extracted cwd ligDir members) := by
  constructor
  · intro m hm
    induction members with
    | nil => simp [casp15Extracted] at hm
    | cons m0 ms ih =>
      rw [casp15Extracted] at hm
      by_cases h1 : nameMatchesLigandSuffix m0.name = true
      · rw [if_pos h1] at hm
        by_cases h2 : is_within_directory cwd ligDir (osJoin ligDir m0.name) = true
        · rw [if_neg (not_not_intro h2)] at hm
          rcases List.mem_cons.mp hm with rfl | h
          · exact is_within_directory_sound h2
          · exact ih h
        · rw [if_pos h2] at hm
          exact ih hm
      · rw [if_neg h1] at hm
        exact ih hm
  · intro m hfalse hm
    induction members with
    | nil => simp [casp15Extracted] at hm
    | cons m0 ms ih =>
      rw [casp15Extracted] at hm
      by_cases h1 : nameMatchesLigandSuffix m0.name = true
      · rw [if_pos h1] at hm
        by_cases h2 : is_within_directory cwd ligDir (osJoin ligDir m0.name) = true
        · rw [if_neg (not_not_intro h2)] at hm
          rcases List.mem_cons.mp hm with rfl | h
          · rw [hfalse] at h2; exact Bool.false_ne_true h2
          · exact ih h
        · rw [if_pos h2] at hm
          exact ih hm
      · rw [if_neg h1] at hm
        exact ih hm

/-- Witness for C1: a benign member `a.smi` is extracted and its resolved
path is inside the root, while the traversal member `../evil.smi` fails the
containment check and is skipped. -/
theorem c1_extraction_containment_witness :
    (abspathComps [("root").data] (("lig").data) <+:
      abspathComps [("root").data] (osJoin ("lig").data ("a.smi").data)) ∧
    (⟨("../evil.smi").data, MemberType.file⟩ : TarMember) ∉
      casp15Extracted [("root").data] ("lig").data
        [⟨("../evil.smi").data, MemberType.file⟩] :=
  ⟨(c1_extraction_containment [("root").data] ("lig").data
      [⟨("a.smi").data, MemberType.file⟩]).1 ⟨("a.smi").data, MemberType.file⟩ (by decide),
   (c1_extraction_containment [("root").data] ("lig").data
      [⟨("../evil.smi").data, MemberType.file⟩]).2 ⟨("../evil.smi").data, MemberType.file⟩
      (by decide)⟩

/-- C7 counterexample: script 2's extraction loop never checks the member
type, so a directory-type member named `sub.txt` (allowed suffix, inside the
root) is extracted, contradicting the claim that non-regular-file members
are never extracted. -/
theorem c7_counterexample :
    (⟨("sub.txt").data, MemberType.dir⟩ : TarMember) ∈
      casp15Extracted [("root").data] ("lig").data
        [⟨("sub.txt").data, MemberType.dir⟩] := by
  decide

/-- C7 (amended): script 2's loop extracts exactly the members whose
lowercased name ends in an allowed suffix and whose joined output path
passes the containment check, regardless of member type; script 1's
in-memory TSV reader processes exactly the regular-file members whose
lowercased name ends in `.tsv` — any member failing that guard leaves the
state unchanged, and any regular `.tsv` member has its data rows appended
with the two provenance fields (and the header recorded when it is the
first one read). -/
theorem c7_extraction_filter :
    (∀ (cwd : List (List Char)) (ligDir : List Char) (members : List TarMember),
      casp15Extracted cwd ligDir members =
        members.filter (fun m =>
          nameMatchesLigandSuffix m.name &&
          is_within_directory cwd ligDir (osJoin ligDir m.name))) ∧
    (∀ (tarname : List Char) (st : CombState) (m : TsvMember),
      (m.isfile && (".tsv").data.isSuffixOf (m.name.map Char.toLower)) = false →
      combineMember tarname st m = Except.ok st) ∧
    (∀ (tarname : List Char) (st : CombState) (name : List Char)
      (header : List (List Char)) (rows : List (List (List Char))),
      (".tsv").data.isSuffixOf (name.map Char.toLower) = true →
      combineMember tarname st ⟨name, true, header :: rows⟩ =
        Except.ok
          { header :=
              if st.header = none then
                some (("supertarget").data :: ("source_file").data :: header)
              else st.header,
            rows := st.rows ++ rows.map (fun row => tsvLabel tarname :: name :: row) }) := by
  refine ⟨?_, ?_, ?_⟩
  · intro cwd ligDir members
    induction members with
    | nil => rfl
    | cons m0 ms ih =>
      rw [casp15Extracted, List.filter_cons, ih]
      by_cases h1 : nameMatchesLigandSuffix m0.name = true
      · by_cases h2 : is_within_directory cwd ligDir (osJoin ligDir m0.name) = true
        · simp [h1, h2]
        · simp [h1, h2]
      · simp [h1]
  · intro tarname st m hguard
    rw [combineMember, if_neg]
    rw [hguard]
    exact Bool.false_ne_true
  · intro tarname st name header rows hsuf
    rw [combineMember]
    simp only [hsuf, Bool.and_true, if_true]

/-- Witness for C7 (amended): a regular member `notes.txt` is ignored by
script 1's TSV reader, while the regular member `pose.tsv` has its header
recorded and its single data row appended with the two provenance fields. -/
theorem c7_extraction_filter_witness :
    combineMember ("L1000.SMILES.tar.gz").data { header := none, rows := [] }
        ⟨("notes.txt").data, true, [[("x").data]]⟩ =
      Except.ok { header := none, rows := [] } ∧
    combineMember ("L1000.SMILES.tar.gz").data { header := none, rows := [] }
        ⟨("pose.tsv").data, true, [[("id").data], [("a").data]]⟩ =
      Except.ok
        { header := some [("supertarget").data, ("source_file").data, ("id").data],
          rows := [[("L1000").data, ("pose.tsv").data, ("a").data]] } :=
  ⟨c7_extraction_filter.2.1 ("L1000.SMILES.tar.gz").data { header := none, rows := [] }
      ⟨("notes.txt").data, true, [[("x").data]]⟩ (by decide),
    (c7_extraction_filter.2.2 ("L1000.SMILES.tar.gz").data { header := none, rows := [] }
      ("pose.tsv").data [("id").data] [[("a").data]] (by decide)).trans (by rfl)⟩

end Casp

namespace Casp

/-- C5: on the claim's instance — two archives, each holding one regular
TSV member with the same header and one two-field data row — the combining
loop records the first header once, prefixed with the two provenance
columns, and emits each data row prefixed with the archive-derived label
and the member path. -/
theorem c5_combined_table (t1 t2 m1 m2 : List Char) (h : List (List Char))
    (hm1 : (".tsv").data.isSuffixOf (m1.map Char.toLower) = true)
    (hm2 : (".tsv").data.isSuffixOf (m2.map Char.toLower) = true) :
    combinedTable
      [⟨t1, [⟨m1, true, [h, [("a").data, ("1").data]]⟩]⟩,
       ⟨t2, [⟨m2, true, [h, [("b").data, ("2").data]]⟩]⟩] =
    Except.ok
      { header := some (("supertarget").data :: ("source_file").data :: h),
        rows := [tsvLabel t1 :: m1 :: [("a").data, ("1").data],
                 tsvLabel t2 :: m2 :: [("b").data, ("2").data]] } := by
  simp [combinedTable, combineArchives, combineMembers, combineMember, hm1, hm2]

/-- Witness for C5 at fully concrete archives. -/
theorem c5_combined_table_witness :
    combinedTable
      [⟨("L1000.SMILES.tar.gz").data,
        [⟨("L1000/pose.tsv").data, true,
          [[("id").data, ("smiles").data], [("a").data, ("1").data]]⟩]⟩,
       ⟨("L2000.SMILES.tar.gz").data,
        [⟨("L2000/pose.tsv").data, true,
          [[("id").data, ("smiles").data], [("b").data, ("2").data]]⟩]⟩] =
    Except.ok
      { header := some [("supertarget").data, ("source_file").data,
          ("id").data, ("smiles").data],
        rows := [[("L1000").data, ("L1000/pose.tsv").data, ("a").data, ("1").data],
                 [("L2000").data, ("L2000/pose.tsv").data, ("b").data, ("2").data]] } :=
  (c5_combined_table ("L1000.SMILES.tar.gz").data ("L2000.SMILES.tar.gz").data
      ("L1000/pose.tsv").data ("L2000/pose.tsv").data
      [("id").data, ("smiles").data] (by decide) (by decide)).trans (by rfl)

/-- C6: for every page text, the index lister returns a sorted list with no
duplicates, containing no parent link, no self link, and no entry starting
with a question mark or a hash. -/
theorem c6_index_list (page : List Char) :
    (http_index_list page).Sorted (fun a b : List Char => a ≤ b) ∧
    (http_index_list page).Nodup ∧
    ∀ h ∈ http_index_list page,
      h.head? ≠ some '?' ∧ h ≠ ("../").data ∧ h ≠ ("./").data ∧
        h.head? ≠ some '#' := by
  refine ⟨List.sorted_insertionSort _ _, ?_, ?_⟩
  · exact ((List.perm_insertionSort _ _).nodup_iff).mpr (List.nodup_dedup _)
  · intro h hh
    have h1 : h ∈ ((findHrefs page).filter keepHref).dedup :=
      (List.perm_insertionSort (fun a b : List Char => a ≤ b) _).mem_iff.mp hh
    have h2 : keepHref h = true := List.of_mem_filter (List.mem_dedup.mp h1)
    simp only [keepHref, Bool.and_eq_true, bne_iff_ne, ne_eq] at h2
    exact ⟨h2.1.1.1, h2.1.1.2, h2.1.2, h2.2⟩

/-- C8: script 1's CLI driver runs exactly the stages selected by the flags
(the first, second and fourth unless skipped; the third and fifth only if
requested), in the fixed order SMILES, CASP16 FASTAs, CASP16 results,
CASP15 FASTAs, CASP15 predictions. -/
theorem c8_main_stage_order (a : Args) :
    mainStages a = stageOrder.filter (stageSelected a) := by
  obtain ⟨b1, b2, b3, b4, b5⟩ := a
  cases b1 <;> cases b2 <;> cases b3 <;> cases b4 <;> cases b5 <;> rfl

/-- C9: script 1's `download` checks the HTTP status before opening the
destination: on a 4xx/5xx response it raises, the destination file is not
created or modified, and only the parent directory has been created. -/
theorem c9_download_status_before_open
    (net : List Char → Except (List Char) Resp) (fsys : FileSys)
    (url dest : List Char) (r : Resp)
    (hr : net url = Except.ok r) (hbad : httpStatusBad r.status = true) :
    (download net fsys url dest).2.isSome = true ∧
    (download net fsys url dest).1.files = fsys.files ∧
    (download net fsys url dest).1.dirs = parentDir dest :: fsys.dirs := by
  unfold download
  rw [hr]
  simp [hbad]

/-- Witness for C9 with a concrete 404 response. -/
theorem c9_download_status_before_open_witness :
    ((download (fun _ => Except.ok ⟨404, []⟩) ⟨[], []⟩
        ("https://x/y.tar.gz").data ("out/y.tar.gz").data).2.isSome = true) ∧
    ((download (fun _ => Except.ok ⟨404, []⟩) ⟨[], []⟩
        ("https://x/y.tar.gz").data ("out/y.tar.gz").data).1.files = []) ∧
    ((download (fun _ => Except.ok ⟨404, []⟩) ⟨[], []⟩
        ("https://x/y.tar.gz").data ("out/y.tar.gz").data).1.dirs =
      [parentDir ("out/y.tar.gz").data]) :=
  c9_download_status_before_open (fun _ => Except.ok ⟨404, []⟩) ⟨[], []⟩
    ("https://x/y.tar.gz").data ("out/y.tar.gz").data ⟨404, []⟩ rfl (by decide)

end Casp

namespace Casp

/-! ## Loop lemmas for script 2's per-target FASTA loop -/

theorem casp15FastaDest_inj {a b : List Char}
    (h : casp15FastaDest a = casp15FastaDest b) : a = b := by
  unfold casp15FastaDest at h
  rw [List.append_assoc, List.append_assoc] at h
  exact List.append_cancel_right (List.append_cancel_left h)

theorem casp15Loop_err (net : List Char → Except (List Char) (List Char))
    (fs : List (List Char)) (targets : List (List Char)) :
    (casp15TargetFetchLoop net fs targets).err = none := by
  induction targets generalizing fs with
  | nil => rfl
  | cons t0 rest ih =>
    cases hnet : net (casp15TargetUrl t0) with
    | error e => simp only [casp15TargetFetchLoop, hnet]; exact ih fs
    | ok data =>
      simp only [casp15TargetFetchLoop, hnet]
      by_cases hgt : data.head? = some '>'
      · simp only [if_pos hgt]; exact ih _
      · simp only [if_neg hgt]; exact ih fs

theorem casp15Loop_requested (net : List Char → Except (List Char) (List Char))
    (fs : List (List Char)) (targets : List (List Char)) :
    (casp15TargetFetchLoop net fs targets).requested = targets := by
  induction targets generalizing fs with
  | nil => rfl
  | cons t0 rest ih =>
    cases hnet : net (casp15TargetUrl t0) with
    | error e => simp only [casp15TargetFetchLoop, hnet]; rw [ih fs]
    | ok data =>
      simp only [casp15TargetFetchLoop, hnet]
      by_cases hgt : data.head? = some '>'
      · simp only [if_pos hgt]; rw [ih]
      · simp only [if_neg hgt]; rw [ih fs]

theorem casp15Loop_writes_gt (net : List Char → Except (List Char) (List Char))
    (fs : List (List Char)) (targets : List (List Char)) :
    ∀ pd ∈ (casp15TargetFetchLoop net fs targets).writes, pd.2.head? = some '>' := by
  induction targets generalizing fs with
  | nil => intro pd hpd; simp [casp15TargetFetchLoop] at hpd
  | cons t0 rest ih =>
    intro pd hpd
    cases hnet : net (casp15TargetUrl t0) with
    | error e =>
      simp only [casp15TargetFetchLoop, hnet] at hpd
      exact ih fs pd hpd
    | ok data =>
      simp only [casp15TargetFetchLoop, hnet] at hpd
      by_cases hgt : data.head? = some '>'
      · simp only [if_pos hgt] at hpd
        rcases List.mem_cons.mp hpd with h | h
        · rw [h]; exact hgt
        · exact ih _ pd h
      · simp only [if_neg hgt] at hpd
        exact ih fs pd hpd

theorem casp15Loop_no_write_of_bad
    (net : List Char → Except (List Char) (List Char))
    (fs : List (List Char)) (targets : List (List Char)) (tid d : List Char)
    (hnet : net (casp15TargetUrl tid) = Except.ok d) (hd : d.head? ≠ some '>') :
    casp15FastaDest tid ∉ (casp15TargetFetchLoop net fs targets).writes.map Prod.fst := by
  induction targets generalizing fs with
  | nil => simp [casp15TargetFetchLoop]
  | cons t0 rest ih =>
    cases hnet0 : net (casp15TargetUrl t0) with
    | error e =>
      simp only [casp15TargetFetchLoop, hnet0]
      exact ih fs
    | ok data =>
      simp only [casp15TargetFetchLoop, hnet0]
      by_cases hgt : data.head? = some '>'
      · simp only [if_pos hgt, List.map_cons]
        intro hmem
        rcases List.mem_cons.mp hmem with heq | hmem2
        · have heq2 : tid = t0 := casp15FastaDest_inj heq
          rw [← heq2] at hnet0
          rw [hnet] at hnet0
          have : d = data := by injection hnet0
          rw [← this] at hgt
          exact hd hgt
        · exact ih _ hmem2
      · simp only [if_neg hgt]
        exact ih fs

theorem casp15Loop_failure_mem
    (net : List Char → Except (List Char) (List Char))
    (fs : List (List Char)) (targets : List (List Char)) (tid d : List Char)
    (htid : tid ∈ targets)
    (hnet : net (casp15TargetUrl tid) = Except.ok d) (hd : d.head? ≠ some '>') :
    tid ∈ (casp15TargetFetchLoop net fs targets).failures := by
  induction targets generalizing fs with
  | nil => cases htid
  | cons t0 rest ih =>
    rcases List.mem_cons.mp htid with rfl | hmem
    · simp only [casp15TargetFetchLoop, hnet, if_neg hd]
      exact List.mem_cons_self _ _
    · cases hnet0 : net (casp15TargetUrl t0) with
      | error e =>
        simp only [casp15TargetFetchLoop, hnet0]
        exact List.mem_cons_of_mem _ (ih fs hmem)
      | ok data =>
        simp only [casp15TargetFetchLoop, hnet0]
        by_cases hgt : data.head? = some '>'
        · simp only [if_pos hgt]; exact ih _ hmem
        · simp only [if_neg hgt]; exact List.mem_cons_of_mem _ (ih fs hmem)

/-- C10: script 2's per-target FASTA loop never aborts and requests every
identifier; every file it writes has a body starting with the byte `>`;
and for an identifier whose response does not start with `>`, the failure
is logged and no file is written for that identifier. -/
theorem c10_fasta_write_guard
    (net : List Char → Except (List Char) (List Char)) (fs : List (List Char))
    (targets : List (List Char)) :
    (casp15TargetFetchLoop net fs targets).err = none ∧
    (casp15TargetFetchLoop net fs targets).requested = targets ∧
    (∀ pd ∈ (casp15TargetFetchLoop net fs targets).writes, pd.2.head? = some '>') ∧
    (∀ tid ∈ targets, ∀ d : List Char, net (casp15TargetUrl tid) = Except.ok d →
      d.head? ≠ some '>' →
      tid ∈ (casp15TargetFetchLoop net fs targets).failures ∧
      casp15FastaDest tid ∉ (casp15TargetFetchLoop net fs targets).writes.map Prod.fst) :=
  ⟨casp15Loop_err net fs targets, casp15Loop_requested net fs targets,
    casp15Loop_writes_gt net fs targets,
    fun tid htid d hnet hd =>
      ⟨casp15Loop_failure_mem net fs targets tid d htid hnet hd,
        casp15Loop_no_write_of_bad net fs targets tid d hnet hd⟩⟩

/-- Witness for C10: a constant response body `"oops"` (no leading `>`) on
the single identifier `T1152` is logged as a failure, nothing is written
for it, and the loop still terminates without an uncaught error. -/
theorem c10_fasta_write_guard_witness :
    (casp15TargetFetchLoop (fun _ => Except.ok ("oops").data) [] [("T1152").data]).err
        = none ∧
    ("T1152").data ∈
      (casp15TargetFetchLoop (fun _ => Except.ok ("oops").data) []
        [("T1152").data]).failures ∧
    casp15FastaDest ("T1152").data ∉
      (casp15TargetFetchLoop (fun _ => Except.ok ("oops").data) []
        [("T1152").data]).writes.map Prod.fst :=
  ⟨(c10_fasta_write_guard (fun _ => Except.ok ("oops").data) [] [("T1152").data]).1,
    ((c10_fasta_write_guard (fun _ => Except.ok ("oops").data) [] [("T1152").data]).2.2.2
      (("T1152").data) (by decide) (("oops").data) rfl (by decide)).1,
    ((c10_fasta_write_guard (fun _ => Except.ok ("oops").data) [] [("T1152").data]).2.2.2
      (("T1152").data) (by decide) (("oops").data) rfl (by decide)).2⟩

end Casp

namespace Casp

/-! ## Lemmas for script 1's sequence loops and download loops -/

theorem seq15Loop_err (net1 : List Char → Except (List Char) Resp)
    (outdir : List Char) (fs : List (List Char)) (tids : List (List Char)) :
    (fetch_casp15_ligand_fastas net1 outdir fs tids).err = none := by
  induction tids generalizing fs with
  | nil => rfl
  | cons t0 rest ih =>
    by_cases hfs : seq15Dest outdir t0 ∈ fs
    · simp only [fetch_casp15_ligand_fastas, if_pos hfs]
      exact ih fs
    · simp only [fetch_casp15_ligand_fastas, if_neg hfs]
      cases hnet : net1 (seq15Url t0) with
      | error e => simp only [hnet]; exact ih fs
      | ok resp =>
        simp only [hnet]
        by_cases hst : httpStatusBad resp.status = true
        · simp only [if_pos hst]; exact ih fs
        · simp only [if_neg hst]; exact ih _

theorem seq15Loop_processes (net1 : List Char → Except (List Char) Resp)
    (outdir : List Char) (fs : List (List Char)) (tids : List (List Char)) :
    ∀ tid ∈ tids,
      tid ∈ (fetch_casp15_ligand_fastas net1 outdir fs tids).requested ∨
      tid ∈ (fetch_casp15_ligand_fastas net1 outdir fs tids).skipped := by
  induction tids generalizing fs with
  | nil => intro tid htid; cases htid
  | cons t0 rest ih =>
    intro tid htid
    by_cases hfs : seq15Dest outdir t0 ∈ fs
    · simp only [fetch_casp15_ligand_fastas, if_pos hfs]
      rcases List.mem_cons.mp htid with rfl | hmem
      · right; exact List.mem_cons_self _ _
      · rcases ih fs tid hmem with hh | hh
        · left; exact hh
        · right; exact List.mem_cons_of_mem _ hh
    · simp only [fetch_casp15_ligand_fastas, if_neg hfs]
      cases hnet : net1 (seq15Url t0) with
      | error e =>
        simp only [hnet]
        rcases List.mem_cons.mp htid with rfl | hmem
        · left; exact List.mem_cons_self _ _
        · rcases ih fs tid hmem with hh | hh
          · left; exact List.mem_cons_of_mem _ hh
          · right; exact hh
      | ok resp =>
        simp only [hnet]
        by_cases hst : httpStatusBad resp.status = true
        · simp only [if_pos hst]
          rcases List.mem_cons.mp htid with rfl | hmem
          · left; exact List.mem_cons_self _ _
          · rcases ih fs tid hmem with hh | hh
            · left; exact List.mem_cons_of_mem _ hh
            · right; exact hh
        · simp only [if_neg hst]
          rcases List.mem_cons.mp htid with rfl | hmem
          · left; exact List.mem_cons_self _ _
          · rcases ih _ tid hmem with hh | hh
            · left; exact List.mem_cons_of_mem _ hh
            · right; exact hh

theorem casp16SmilesDownloads_eq_nil (outdir : List Char) (fs : List (List Char))
    (tars : List (List Char)) (h : ∀ t ∈ tars, casp16SmilesTarDest outdir t ∈ fs) :
    casp16SmilesDownloads outdir fs tars = [] := by
  induction tars with
  | nil => rfl
  | cons t rest ih =>
    rw [casp16SmilesDownloads, if_pos (h t (List.mem_cons_self t rest))]
    exact ih (fun x hx => h x (List.mem_cons_of_mem _ hx))

theorem casp16ResultsDownloads_eq_nil (outdir : List Char) (fs : List (List Char))
    (csvs : List (List Char)) (h : ∀ t ∈ csvs, casp16ResultsDest outdir t ∈ fs) :
    casp16ResultsDownloads outdir fs csvs = [] := by
  induction csvs with
  | nil => rfl
  | cons t rest ih =>
    rw [casp16ResultsDownloads, if_pos (h t (List.mem_cons_self t rest))]
    exact ih (fun x hx => h x (List.mem_cons_of_mem _ hx))

theorem casp15PredDownloads_eq_nil (outdir : List Char) (fs : List (List Char))
    (preds : List (List Char)) (h : ∀ t ∈ preds, casp15PredDest outdir t ∈ fs) :
    casp15PredDownloads outdir fs preds = [] := by
  induction preds with
  | nil => rfl
  | cons t rest ih =>
    rw [casp15PredDownloads, if_pos (h t (List.mem_cons_self t rest))]
    exact ih (fun x hx => h x (List.mem_cons_of_mem _ hx))

theorem seq16Loop_complete_no_requests (net1 : List Char → Except (List Char) Resp)
    (outdir : List Char) (fs : List (List Char)) (tids : List (List Char))
    (h : ∀ tid ∈ tids, seq16Dest outdir tid ∈ fs) :
    (fetch_casp16_sequences net1 outdir fs tids).requested = [] ∧
    (fetch_casp16_sequences net1 outdir fs tids).writes = [] ∧
    (fetch_casp16_sequences net1 outdir fs tids).err = none := by
  induction tids with
  | nil => exact ⟨rfl, rfl, rfl⟩
  | cons t rest ih =>
    simp only [fetch_casp16_sequences, if_pos (h t (List.mem_cons_self t rest))]
    exact ih (fun x hx => h x (List.mem_cons_of_mem _ hx))

theorem seq15Loop_complete_no_requests (net1 : List Char → Except (List Char) Resp)
    (outdir : List Char) (fs : List (List Char)) (tids : List (List Char))
    (h : ∀ tid ∈ tids, seq15Dest outdir tid ∈ fs) :
    (fetch_casp15_ligand_fastas net1 outdir fs tids).requested = [] ∧
    (fetch_casp15_ligand_fastas net1 outdir fs tids).writes = [] ∧
    (fetch_casp15_ligand_fastas net1 outdir fs tids).err = none := by
  induction tids with
  | nil => exact ⟨rfl, rfl, rfl⟩
  | cons t rest ih =>
    simp only [fetch_casp15_ligand_fastas, if_pos (h t (List.mem_cons_self t rest))]
    exact ih (fun x hx => h x (List.mem_cons_of_mem _ hx))

/-- C3 counterexample: script 1's CASP16 sequence loop (`fetch_casp16_sequences`)
has no try/except around its body: with a network that raises on the first
identifier, the loop aborts with an uncaught error and the second
identifier is neither requested nor skipped, contradicting the claim that a
failure of one identifier never aborts any per-target sequence fetch loop. -/
theorem c3_counterexample :
    (fetch_casp16_sequences (fun _ => Except.error ("boom").data) ("out").data []
        [("L1000").data, ("L2000").data]).err = some ("boom").data ∧
    ("L2000").data ∉ (fetch_casp16_sequences (fun _ => Except.error ("boom").data)
        ("out").data [] [("L1000").data, ("L2000").data]).requested ∧
    ("L2000").data ∉ (fetch_casp16_sequences (fun _ => Except.error ("boom").data)
        ("out").data [] [("L1000").data, ("L2000").data]).skipped := by
  decide

/-- C3 (amended): the CASP15 per-target loops — script 1's
`fetch_casp15_ligand_fastas` and script 2's FASTA loop — catch and log
per-identifier failures and keep processing the remaining identifiers, so
they never abort; script 1's CASP16 sequence loop instead lets a failure
propagate and abort the loop. -/
theorem c3_casp15_loops_isolate_failures
    (net1 : List Char → Except (List Char) Resp)
    (net2 : List Char → Except (List Char) (List Char))
    (outdir : List Char) (fs1 fs2 : List (List Char))
    (tids targets : List (List Char)) :
    ((fetch_casp15_ligand_fastas net1 outdir fs1 tids).err = none ∧
      ∀ tid ∈ tids,
        tid ∈ (fetch_casp15_ligand_fastas net1 outdir fs1 tids).requested ∨
        tid ∈ (fetch_casp15_ligand_fastas net1 outdir fs1 tids).skipped) ∧
    ((casp15TargetFetchLoop net2 fs2 targets).err = none ∧
      (casp15TargetFetchLoop net2 fs2 targets).requested = targets) :=
  ⟨⟨seq15Loop_err net1 outdir fs1 tids, seq15Loop_processes net1 outdir fs1 tids⟩,
    ⟨casp15Loop_err net2 fs2 targets, casp15Loop_requested net2 fs2 targets⟩⟩

/-- Witness for C3 (amended): with a network that always raises, both
CASP15 loops still process every identifier and finish without an uncaught
error. -/
theorem c3_casp15_loops_isolate_failures_witness :
    (fetch_casp15_ligand_fastas (fun _ => Except.error ("boom").data) ("out").data []
        [("T1104").data, ("T1105").data]).err = none ∧
    (("T1105").data ∈ (fetch_casp15_ligand_fastas (fun _ => Except.error ("boom").data)
        ("out").data [] [("T1104").data, ("T1105").data]).requested ∨
      ("T1105").data ∈ (fetch_casp15_ligand_fastas (fun _ => Except.error ("boom").data)
        ("out").data [] [("T1104").data, ("T1105").data]).skipped) ∧
    (casp15TargetFetchLoop (fun _ => Except.error ("boom").data) []
        [("T1104").data]).requested = [("T1104").data] :=
  ⟨(c3_casp15_loops_isolate_failures (fun _ => Except.error ("boom").data)
      (fun _ => Except.error ("boom").data) ("out").data [] []
      [("T1104").data, ("T1105").data] [("T1104").data]).1.1,
    (c3_casp15_loops_isolate_failures (fun _ => Except.error ("boom").data)
      (fun _ => Except.error ("boom").data) ("out").data [] []
      [("T1104").data, ("T1105").data] [("T1104").data]).1.2
      (("T1105").data) (by decide),
    (c3_casp15_loops_isolate_failures (fun _ => Except.error ("boom").data)
      (fun _ => Except.error ("boom").data) ("out").data [] []
      [("T1104").data, ("T1105").data] [("T1104").data]).2.2⟩

/-- C2 counterexample: script 2's per-target FASTA loop has no existence
check: with the destination file of `T1152` already on disk, a fetch for
`T1152` is still issued, contradicting the claim that every download
operation in both scripts is skipped when its destination exists. -/
theorem c2_counterexample :
    casp15FastaDest ("T1152").data ∈ [casp15FastaDest ("T1152").data] ∧
    (casp15TargetFetchLoop (fun _ => Except.ok (">A").data)
        [casp15FastaDest ("T1152").data] [("T1152").data]).requested =
      [("T1152").data] := by
  decide

/-- C2 (amended): every download loop of script 1 checks its destination
and skips the fetch when the destination already exists — over a complete
output tree script 1 issues no tarball, CSV or sequence fetches; script 2
has no existence checks and issues its per-target fetches unconditionally
on every run. -/
theorem c2_rerun_downloads
    (outdir : List Char) (fs : List (List Char))
    (tars csvs preds tids16 tids15 : List (List Char))
    (net1 : List Char → Except (List Char) Resp)
    (net2 : List Char → Except (List Char) (List Char))
    (fs2 targets2 : List (List Char))
    (h1 : ∀ t ∈ tars, casp16SmilesTarDest outdir t ∈ fs)
    (h2 : ∀ t ∈ csvs, casp16ResultsDest outdir t ∈ fs)
    (h3 : ∀ t ∈ preds, casp15PredDest outdir t ∈ fs)
    (h4 : ∀ t ∈ tids16, seq16Dest outdir t ∈ fs)
    (h5 : ∀ t ∈ tids15, seq15Dest outdir t ∈ fs) :
    casp16SmilesDownloads outdir fs tars = [] ∧
    casp16ResultsDownloads outdir fs csvs = [] ∧
    casp15PredDownloads outdir fs preds = [] ∧
    (fetch_casp16_sequences net1 outdir fs tids16).requested = [] ∧
    (fetch_casp15_ligand_fastas net1 outdir fs tids15).requested = [] ∧
    (casp15TargetFetchLoop net2 fs2 targets2).requested = targets2 :=
  ⟨casp16SmilesDownloads_eq_nil outdir fs tars h1,
    casp16ResultsDownloads_eq_nil outdir fs csvs h2,
    casp15PredDownloads_eq_nil outdir fs preds h3,
    (seq16Loop_complete_no_requests net1 outdir fs tids16 h4).1,
    (seq15Loop_complete_no_requests net1 outdir fs tids15 h5).1,
    casp15Loop_requested net2 fs2 targets2⟩

/-- Witness for C2 (amended) on a one-entry-per-stage complete output tree. -/
theorem c2_rerun_downloads_witness :
    casp16SmilesDownloads ("o").data
      [casp16SmilesTarDest ("o").data ("L1000.SMILES.tar.gz").data,
        casp16ResultsDest ("o").data ("poses.csv").data,
        casp15PredDest ("o").data ("LG000.tar.gz").data,
        seq16Dest ("o").data ("L1000").data,
        seq15Dest ("o").data ("T1104").data]
      [("L1000.SMILES.tar.gz").data] = [] ∧
    (fetch_casp16_sequences (fun _ => Except.error ("boom").data) ("o").data
      [casp16SmilesTarDest ("o").data ("L1000.SMILES.tar.gz").data,
        casp16ResultsDest ("o").data ("poses.csv").data,
        casp15PredDest ("o").data ("LG000.tar.gz").data,
        seq16Dest ("o").data ("L1000").data,
        seq15Dest ("o").data ("T1104").data]
      [("L1000").data]).requested = [] ∧
    (casp15TargetFetchLoop (fun _ => Except.ok (">A").data)
      [casp15FastaDest ("T1104").data] [("T1104").data]).requested =
      [("T1104").data] := by
  have h := c2_rerun_downloads ("o").data
    [casp16SmilesTarDest ("o").data ("L1000.SMILES.tar.gz").data,
      casp16ResultsDest ("o").data ("poses.csv").data,
      casp15PredDest ("o").data ("LG000.tar.gz").data,
      seq16Dest ("o").data ("L1000").data,
      seq15Dest ("o").data ("T1104").data]
    [("L1000.SMILES.tar.gz").data] [("poses.csv").data] [("LG000.tar.gz").data]
    [("L1000").data] [("T1104").data]
    (fun _ => Except.error ("boom").data) (fun _ => Except.ok (">A").data)
    [casp15FastaDest ("T1104").data] [("T1104").data]
    (by decide) (by decide) (by decide) (by decide) (by decide)
  exact ⟨h.1, h.2.2.2.1, h.2.2.2.2.2⟩

end Casp

namespace Casp

/-- Witness for C6 on a concrete listing page containing a real link, a
parent link and a query link: the real link is returned and satisfies the
filter conditions. -/
theorem c6_index_list_witness :
    ("x.csv").data.head? ≠ some '?' ∧ ("x.csv").data ≠ ("../").data ∧
      ("x.csv").data ≠ ("./").data ∧ ("x.csv").data.head? ≠ some '#' :=
  (c6_index_list
      (("<a href=\"../\">up</a> <a href=\"x.csv\">x</a> <a href=\"?C=N\">s</a>").data)).2.2
    (("x.csv").data) (by decide)

end Casp
